import Mathlib

/-!
Verification development for the DTL student dropout risk prediction backend.

The definitions below are a shallow embedding of the Python source:
  * backend/app/routers/prediction.py (feature mapping, heuristic fallback
    scoring, risk tiering, risk factor / recommendation rules, the two
    prediction entry points and their persistence handling), and
  * backend/app/repositories/prediction_repository.py (dashboard statistics
    and top-risk-factor aggregation).

Python floats are modelled as exact rationals (all constants involved are
exactly representable), Python ints as Lean integers, and fallible
operations as Except values.
-/

namespace DTL

/-! ## Numeric helpers modelling Python builtins -/

/-- Python round(x): round half to even (banker's rounding). -/
def pyRound (x : Rat) : Int :=
  let n := x.floor
  let frac := x - (n : Rat)
  if frac < 1/2 then n
  else if 1/2 < frac then n + 1
  else if 2 ∣ n then n else n + 1

/-- Python round(x, prec): round to a given number of decimal digits,
half to even. -/
def pyRoundTo (prec : Nat) (x : Rat) : Rat :=
  (pyRound (x * (10 : Rat) ^ prec) : Rat) / (10 : Rat) ^ prec

/-- Python int(x) on a float: truncation toward zero. -/
def pyInt (x : Rat) : Int :=
  if 0 ≤ x then x.floor else x.ceil

/-- Python dict.get(key, fallback) on a list of key-value pairs. -/
def dictGet {α : Type} (m : List (String × α)) (key : String) (dflt : α) : α :=
  match m.find? (fun p => p.1 == key) with
  | some p => p.2
  | none => dflt

/-! ## Data model (backend/app/models/schemas.py) -/

/-- Pydantic model SimplifiedAssessmentRequest. -/
structure SimplifiedAssessmentRequest where
  consent_given : Bool
  consent_data_processing : Bool
  consent_anonymous_analytics : Bool
  academic_year : String
  attendance : String
  overwhelm_frequency : String
  study_hours : String
  performance_satisfaction : Int
  advisor_interaction : String
  support_network_strength : Int
  extracurricular_hours : Int
  employment_status : String
  financial_stress : String
  career_alignment : Int
  services_used : List String
  withdrawal_considered : Bool
  withdrawal_reasons : List String
deriving DecidableEq

/-- Pydantic model RiskFactor. -/
structure RiskFactor where
  category : String
  factor : String
  impact : String
  description : String
deriving DecidableEq

/-- Pydantic model Recommendation (contact is Optional with default None). -/
structure Recommendation where
  type : String
  title : String
  description : String
  urgency : String
  contact : Option String := none
deriving DecidableEq

/-- Pydantic model PredictionResponse.  The schema declares risk_score as
int; the field here records the exact numeric value the Python code passes
to the constructor, which on the fallback path is a float. -/
structure PredictionResponse where
  risk_level : String
  risk_score : Rat
  dropout_probability : Rat
  predicted_class : Option String := none
  risk_factors : List RiskFactor
  recommendations : List Recommendation
  prediction_confidence : Rat
deriving DecidableEq

/-- Output of the external model capability ml_model.predict: the dict
with keys dropout_probability, predicted_class, model_confidence. -/
structure ModelPrediction where
  dropout_probability : Rat
  predicted_class : Option String
  model_confidence : Rat
deriving DecidableEq

/-! ## Risk tiering (prediction.py lines 143-149 and 261-267) -/

/-- Tier from a model probability (lines 262-267 of prediction.py,
identical code at lines 546-551). -/
def riskLevelOfProb (p : Rat) : String :=
  if 0.6 ≤ p then "high"
  else if 0.35 ≤ p then "medium"
  else "low"

/-- Tier from a heuristic 0-100 score (lines 144-149 of prediction.py). -/
def riskLevelOfScore (s : Rat) : String :=
  if 60 ≤ s then "high"
  else if 35 ≤ s then "medium"
  else "low"

/-! ## Feature mapping (prediction.py, map_form_to_ml_features) -/

/-- FEATURE_ORDER from prediction.py: order of the 8 model features. -/
def FEATURE_ORDER : List String :=
  ["Curricular units 2nd sem (approved)",
   "Curricular units 1st sem (approved)",
   "Tuition fees up to date",
   "Scholarship holder",
   "Age at enrollment",
   "Debtor",
   "Gender",
   "Application mode"]

/-- map_form_to_ml_features from prediction.py. -/
def map_form_to_ml_features (d : SimplifiedAssessmentRequest) : List Rat :=
  let attendance_to_units : List (String × Rat) :=
    [("always", 50), ("often", 45), ("sometimes", 30), ("rarely", 15), ("never", 5)]
  let units : Rat := dictGet attendance_to_units d.attendance 30
  let performance_factor : Rat := (d.performance_satisfaction : Rat) / 10
  let curricular_2nd_sem : Rat := (pyInt (units * performance_factor) : Rat)
  let curricular_1st_sem : Rat := (pyInt (units * performance_factor) : Rat)
  let financial_stress_map : List (String × Rat) :=
    [("none", 1), ("low", 1), ("moderate", 0), ("high", 0), ("very-high", 0)]
  let tuition_fees_up_to_date : Rat := dictGet financial_stress_map d.financial_stress 0
  let scholarship_scores : List (String × Rat) :=
    [("none", 1), ("low", 1), ("moderate", 0), ("high", 0), ("very-high", 0)]
  let scholarship_holder : Rat := dictGet scholarship_scores d.financial_stress 0
  let academic_year_map : List (String × Rat) :=
    [("1st", 18), ("2nd", 19), ("3rd", 20), ("4th", 21)]
  let age_base : Rat := dictGet academic_year_map d.academic_year 19
  let employment_age_adjustment : List (String × Rat) :=
    [("not-employed", 0), ("part-time", 1), ("full-time", 2)]
  let age_at_enrollment : Rat :=
    age_base + dictGet employment_age_adjustment d.employment_status 0
  let debtor_map : List (String × Rat) :=
    [("none", 0), ("low", 0), ("moderate", 1), ("high", 1), ("very-high", 1)]
  let debtor : Rat := dictGet debtor_map d.financial_stress 0
  let gender : Rat := if d.study_hours ∈ ["8+", "5-8"] then 0 else 1
  let application_mode : Rat :=
    if d.employment_status = "full-time" ∧ d.career_alignment < 5 then 2
    else if 8 ≤ d.career_alignment then 1
    else 1
  [curricular_2nd_sem,
   curricular_1st_sem,
   tuition_fees_up_to_date,
   scholarship_holder,
   age_at_enrollment,
   debtor,
   gender,
   application_mode]

/-! ## Risk factor and recommendation literals shared by both paths
(the Python source repeats these literals verbatim in
calculate_fallback_risk and predict_simplified) -/

/-- Factor literal appended when attendance is rarely or never. -/
def lowAttendanceFactor : RiskFactor :=
  { category := "Academic",
    factor := "Low Class Attendance",
    impact := "high",
    description := "Inconsistent class attendance is strongly correlated with dropout risk" }

/-- Factor literal appended when overwhelm frequency is often or always. -/
def overwhelmFactor : RiskFactor :=
  { category := "Mental Health",
    factor := "Academic Overwhelm",
    impact := "high",
    description := "Feeling frequently overwhelmed can lead to burnout and withdrawal" }

/-- Factor literal appended when financial stress is high or very-high. -/
def financialStressFactor : RiskFactor :=
  { category := "Financial",
    factor := "Financial Stress",
    impact := "high",
    description := "Financial difficulties are a leading cause of student withdrawal" }

/-- Factor literal appended when withdrawal was considered. -/
def withdrawalFactor : RiskFactor :=
  { category := "Behavioral",
    factor := "Withdrawal Consideration",
    impact := "high",
    description := "Active consideration of withdrawal indicates elevated risk" }

/-- Factor literal appended on the model path when support network is weak. -/
def weakSupportFactor : RiskFactor :=
  { category := "Social",
    factor := "Weak Support Network",
    impact := "medium",
    description := "Limited social support increases vulnerability during challenges" }

/-- Factor literal appended on the model path for full-time employment. -/
def fullTimeEmploymentFactor : RiskFactor :=
  { category := "Personal",
    factor := "Full-time Employment",
    impact := "medium",
    description := "Working full-time while studying significantly increases time pressure" }

/-- Recommendation literal for the high tier. -/
def counselingRec : Recommendation :=
  { type := "counseling",
    title := "Mental Health Support",
    description := "Schedule an urgent appointment with a counselor to discuss your concerns and develop a support plan",
    urgency := "immediate",
    contact := some ("counseling@rvce.edu.in") }

/-- Recommendation literal for high financial stress. -/
def financialAidRec : Recommendation :=
  { type := "financial",
    title := "Financial Aid Office",
    description := "Connect with financial aid office to explore scholarships, grants, and emergency funding options",
    urgency := "soon",
    contact := some ("financialaid@rvce.edu.in") }

/-- Recommendation literal for low performance satisfaction. -/
def tutoringRec : Recommendation :=
  { type := "academic",
    title := "Academic Tutoring",
    description := "Access tutoring services and study groups to improve academic performance",
    urgency := "soon",
    contact := some ("tutoring@rvce.edu.in") }

/-- Recommendation literal on the model path for rare advisor interaction. -/
def advisorMeetingRec : Recommendation :=
  { type := "academic",
    title := "Schedule Advisor Meeting",
    description := "Regular meetings with your academic advisor can help with course planning and early problem detection",
    urgency := "soon",
    contact := some ("advising@rvce.edu.in") }

/-- Recommendation literal on the model path for full-time employment. -/
def timeManagementRec : Recommendation :=
  { type := "peer",
    title := "Time Management Support",
    description := "Consider reducing work hours or exploring flexible work arrangements to prioritize your studies",
    urgency := "soon" }

/-- Recommendation literal emitted when no support services were used. -/
def exploreServicesRec : Recommendation :=
  { type := "support",
    title := "Explore Campus Support Services",
    description := "You haven't indicated using any support services yet. Visit the student center to learn about available resources including academic advising, counseling, and health services.",
    urgency := "soon",
    contact := some ("studentcenter@rvce.edu.in") }

/-- Final fallback recommendation emitted when no other rule fired. -/
def stayConnectedRec : Recommendation :=
  { type := "peer",
    title := "Stay Connected",
    description := "Continue engaging with campus resources and maintain your support network",
    urgency := "when-needed" }

/-! ## Heuristic fallback scorer (prediction.py, calculate_fallback_risk) -/

/-- The additive risk score of calculate_fallback_risk before clamping
(lines 91-138 of prediction.py).  The only non-integer contribution is the
career-alignment term, which carries the 1.5 multiplier. -/
def fallbackRiskScore (d : SimplifiedAssessmentRequest) : Rat :=
  let attendance_scores : List (String × Rat) :=
    [("always", 0), ("often", 5), ("sometimes", 15), ("rarely", 25), ("never", 35)]
  let overwhelm_scores : List (String × Rat) :=
    [("never", 0), ("rarely", 5), ("sometimes", 10), ("often", 20), ("always", 30)]
  let financial_scores : List (String × Rat) :=
    [("none", 0), ("low", 5), ("moderate", 10), ("high", 20), ("very-high", 25)]
  let advisor_scores : List (String × Rat) :=
    [("never", 10), ("once-semester", 5), ("2-3-semester", 2), ("monthly", 0)]
  dictGet attendance_scores d.attendance 0 +
  dictGet overwhelm_scores d.overwhelm_frequency 0 +
  dictGet financial_scores d.financial_stress 0 +
  (if d.withdrawal_considered then 15 else 0) +
  max 0 (10 - (d.performance_satisfaction : Rat)) * 2 +
  dictGet advisor_scores d.advisor_interaction 0 +
  max 0 (10 - (d.support_network_strength : Rat)) +
  (if d.extracurricular_hours < 1 ∨ 15 < d.extracurricular_hours then 5 else 0) +
  max 0 (10 - (d.career_alignment : Rat)) * 1.5 +
  (if d.employment_status = "full-time" then 10
   else if d.employment_status = "part-time" then 5 else 0)

/-- The clamped score: risk_score = min(100, max(0, risk_score)). -/
def fallbackClampedScore (d : SimplifiedAssessmentRequest) : Rat :=
  min 100 (max 0 (fallbackRiskScore d))

/-- Risk factors generated by calculate_fallback_risk (lines 152-183). -/
def fallbackRiskFactors (d : SimplifiedAssessmentRequest) : List RiskFactor :=
  (if d.attendance ∈ ["rarely", "never"] then [lowAttendanceFactor] else []) ++
  (if d.overwhelm_frequency ∈ ["often", "always"] then [overwhelmFactor] else []) ++
  (if d.financial_stress ∈ ["high", "very-high"] then [financialStressFactor] else []) ++
  (if d.withdrawal_considered then [withdrawalFactor] else [])

/-- Recommendations generated by calculate_fallback_risk before the final
empty check (lines 186-222). -/
def fallbackRecsPre (d : SimplifiedAssessmentRequest) (risk_level : String) :
    List Recommendation :=
  (if risk_level = "high" then [counselingRec] else []) ++
  (if d.financial_stress ∈ ["high", "very-high"] then [financialAidRec] else []) ++
  (if d.performance_satisfaction ≤ 4 then [tutoringRec] else []) ++
  (if d.services_used = [] then [exploreServicesRec] else [])

/-- calculate_fallback_risk from prediction.py. -/
def calculate_fallback_risk (d : SimplifiedAssessmentRequest) : PredictionResponse :=
  let risk_score := fallbackClampedScore d
  let risk_level := riskLevelOfScore risk_score
  let recs := fallbackRecsPre d risk_level
  { risk_level := risk_level,
    risk_score := risk_score,
    dropout_probability := risk_score / 100,
    risk_factors := fallbackRiskFactors d,
    recommendations := if recs = [] then [stayConnectedRec] else recs,
    prediction_confidence := 0.75 }

/-! ## Model-backed path (prediction.py, predict_simplified lines 253-499) -/

/-- The fixed 6-entry withdrawal reason map (lines 367-458): for each known
reason, the Recommendation and RiskFactor literals appended for it. -/
def withdrawal_reason_map (reason : String) : Option (Recommendation × RiskFactor) :=
  if reason = "Academic difficulty" then
    some (({ type := "academic",
             title := "Academic Support Program",
             description := "Enroll in our comprehensive academic support program with tutoring, study groups, and study skills workshops",
             urgency := "immediate",
             contact := some ("academicsupport@rvce.edu.in") },
           { category := "Academic",
             factor := "Academic Difficulty",
             impact := "high",
             description := "Struggling with academic material can lead to course failure and withdrawal" }))
  else if reason = "Financial challenges" then
    some (({ type := "financial",
             title := "Emergency Financial Assistance",
             description := "Apply for emergency grants or loans. Meet with financial counselor to create a sustainable plan",
             urgency := "immediate",
             contact := some ("financialaid@rvce.edu.in") },
           { category := "Financial",
             factor := "Financial Crisis",
             impact := "high",
             description := "Severe financial issues are a primary driver of student withdrawal" }))
  else if reason = "Mental health" then
    some (({ type := "counseling",
             title := "Mental Health Crisis Support",
             description := "Contact counseling center immediately. We also have peer support groups and crisis resources available",
             urgency := "immediate",
             contact := some ("counseling@rvce.edu.in") },
           { category := "Mental Health",
             factor := "Mental Health Crisis",
             impact := "high",
             description := "Mental health challenges require immediate professional support and intervention" }))
  else if reason = "Personal/family issues" then
    some (({ type := "support",
             title := "Personal Counseling & Family Support",
             description := "Our counselors can help you navigate personal and family challenges while maintaining your academic progress",
             urgency := "soon",
             contact := some ("counseling@rvce.edu.in") },
           { category := "Personal",
             factor := "Personal/Family Crisis",
             impact := "high",
             description := "Personal and family issues can significantly impact academic focus and commitment" }))
  else if reason = "Lack of interest" then
    some (({ type := "academic",
             title := "Academic Advising & Program Exploration",
             description := "Meet with academic advisor to explore program alternatives, course selections, or potential major changes",
             urgency := "soon",
             contact := some ("advising@rvce.edu.in") },
           { category := "Academic",
             factor := "Loss of Academic Interest",
             impact := "high",
             description := "Declining interest in studies suggests misalignment with chosen program or career path" }))
  else if reason = "Career opportunities" then
    some (({ type := "career",
             title := "Career Planning & Education Strategy",
             description := "Explore how to balance career opportunities with completing your degree. Many students pursue internships while studying",
             urgency := "soon",
             contact := some ("career@rvce.edu.in") },
           { category := "Career",
             factor := "Career Path Conflict",
             impact := "medium",
             description := "External career opportunities may be pulling focus away from academic commitments" }))
  else none

/-- The loop at lines 460-463: for each listed reason present in the map,
append the mapped recommendation and the mapped risk factor. -/
def applyWithdrawalEnrichment (acc : List Recommendation × List RiskFactor)
    (reasons : List String) : List Recommendation × List RiskFactor :=
  reasons.foldl
    (fun a r =>
      match withdrawal_reason_map r with
      | some pr => (a.1 ++ [pr.1], a.2 ++ [pr.2])
      | none => a)
    acc

/-- Risk factors generated on the model path before withdrawal enrichment
(lines 270-317): the four fallback rules plus the support-network and
full-time-employment rules. -/
def modelRiskFactorsBase (d : SimplifiedAssessmentRequest) : List RiskFactor :=
  (if d.attendance ∈ ["rarely", "never"] then [lowAttendanceFactor] else []) ++
  (if d.overwhelm_frequency ∈ ["often", "always"] then [overwhelmFactor] else []) ++
  (if d.financial_stress ∈ ["high", "very-high"] then [financialStressFactor] else []) ++
  (if d.withdrawal_considered then [withdrawalFactor] else []) ++
  (if d.support_network_strength ≤ 3 then [weakSupportFactor] else []) ++
  (if d.employment_status = "full-time" then [fullTimeEmploymentFactor] else [])

/-- Recommendations generated on the model path before withdrawal
enrichment (lines 320-363). -/
def modelRecsBase (d : SimplifiedAssessmentRequest) (risk_level : String) :
    List Recommendation :=
  (if risk_level = "high" then [counselingRec] else []) ++
  (if d.financial_stress ∈ ["high", "very-high"] then [financialAidRec] else []) ++
  (if d.performance_satisfaction ≤ 4 then [tutoringRec] else []) ++
  (if d.advisor_interaction ∈ ["never", "once-semester"] then [advisorMeetingRec] else []) ++
  (if d.employment_status = "full-time" then [timeManagementRec] else [])

/-- Recommendations and risk factors after the withdrawal-reason loop
(the loop runs only when withdrawal was considered and the reason list is
non-empty, mirroring Python truthiness of the list). -/
def modelEnriched (d : SimplifiedAssessmentRequest) (risk_level : String) :
    List Recommendation × List RiskFactor :=
  if d.withdrawal_considered ∧ d.withdrawal_reasons ≠ [] then
    applyWithdrawalEnrichment (modelRecsBase d risk_level, modelRiskFactorsBase d)
      d.withdrawal_reasons
  else (modelRecsBase d risk_level, modelRiskFactorsBase d)

/-- Model-path recommendations before the final empty check: the enriched
list plus the explore-services rule (lines 466-473). -/
def modelRecsPre (d : SimplifiedAssessmentRequest) (risk_level : String) :
    List Recommendation :=
  (modelEnriched d risk_level).1 ++
  (if d.services_used = [] then [exploreServicesRec] else [])

/-- The PredictionResponse built on the model path of predict_simplified
(lines 256-491), as a function of the form data and the model output. -/
def predictModelResponse (d : SimplifiedAssessmentRequest)
    (pred : ModelPrediction) : PredictionResponse :=
  let dropout_probability := pred.dropout_probability
  let risk_score : Int := pyRound (dropout_probability * 100)
  let risk_level := riskLevelOfProb dropout_probability
  let recs := modelRecsPre d risk_level
  { risk_level := risk_level,
    risk_score := (risk_score : Rat),
    dropout_probability := dropout_probability,
    predicted_class := pred.predicted_class,
    risk_factors := (modelEnriched d risk_level).2,
    recommendations := if recs = [] then [stayConnectedRec] else recs,
    prediction_confidence := pred.model_confidence }

/-- The PredictionResponse built by predict_raw (lines 540-562): empty
factor and recommendation lists. -/
def predictRawResponse (pred : ModelPrediction) : PredictionResponse :=
  { risk_level := riskLevelOfProb pred.dropout_probability,
    risk_score := ((pyRound (pred.dropout_probability * 100) : Int) : Rat),
    dropout_probability := pred.dropout_probability,
    predicted_class := pred.predicted_class,
    risk_factors := [],
    recommendations := [],
    prediction_confidence := pred.model_confidence }

/-! ## Entry points with persistence (prediction.py lines 241-575)

The externally owned collaborators are passed in explicitly: whether the
model is loaded, what the model returns, and the outcome of
save_prediction (Except.ok with a record id, or Except.error when the
database raises).  The result type is Except Nat PredictionResponse,
where the error value is the HTTP status code raised. -/

/-- predict_simplified: try the model when loaded and returning a
prediction, otherwise fall back to the heuristic; in both cases the save
is attempted inside a try/except that swallows any database error. -/
def predict_simplified (is_loaded : Bool) (mp : Option ModelPrediction)
    (save : Except String Nat) (d : SimplifiedAssessmentRequest) :
    Except Nat PredictionResponse :=
  if is_loaded then
    match mp with
    | some pred =>
      let result := predictModelResponse d pred
      match save with
      | .ok _ => .ok result
      | .error _ => .ok result
    | none =>
      let result := calculate_fallback_risk d
      match save with
      | .ok _ => .ok result
      | .error _ => .ok result
  else
    let result := calculate_fallback_risk d
    match save with
    | .ok _ => .ok result
    | .error _ => .ok result

/-- The response predict_simplified computes, independent of persistence. -/
def computeSimplified (is_loaded : Bool) (mp : Option ModelPrediction)
    (d : SimplifiedAssessmentRequest) : PredictionResponse :=
  if is_loaded then
    match mp with
    | some pred => predictModelResponse d pred
    | none => calculate_fallback_risk d
  else calculate_fallback_risk d

/-- predict_raw: reject when the model is not loaded (503) or feature keys
are missing (400) or the model returns nothing (500); otherwise build the
response and attempt the save inside the same swallowing try/except. -/
def predict_raw (is_loaded : Bool) (features_dict : String → Option Rat)
    (model : List Rat → Option ModelPrediction) (save : Except String Nat) :
    Except Nat PredictionResponse :=
  if is_loaded then
    let missing := FEATURE_ORDER.filter (fun f => (features_dict f).isNone)
    if missing = [] then
      let feature_vector := FEATURE_ORDER.map (fun f => (features_dict f).getD 0)
      match model feature_vector with
      | some pred =>
        let result := predictRawResponse pred
        match save with
        | .ok _ => .ok result
        | .error _ => .ok result
      | none => .error 500
    else .error 400
  else .error 503

/-- The outcome predict_raw computes, independent of persistence. -/
def computeRaw (is_loaded : Bool) (features_dict : String → Option Rat)
    (model : List Rat → Option ModelPrediction) :
    Except Nat PredictionResponse :=
  if is_loaded then
    let missing := FEATURE_ORDER.filter (fun f => (features_dict f).isNone)
    if missing = [] then
      let feature_vector := FEATURE_ORDER.map (fun f => (features_dict f).getD 0)
      match model feature_vector with
      | some pred => .ok (predictRawResponse pred)
      | none => .error 500
    else .error 400
  else .error 503

/-! ## Dashboard aggregation (prediction_repository.py)

The stored record collection is modelled as a list of rows.  SQL
aggregates over an empty table return NULL, which the Python code maps to
0 with the `x or 0` idiom; the embeddings below perform the corresponding
case split on emptiness directly. -/

/-- A stored prediction row (the columns get_dashboard_stats reads). -/
structure StoredPrediction where
  risk_level : String
  risk_score : Rat
  created_at : Int
deriving DecidableEq

/-- The dict returned by get_dashboard_stats. -/
structure DashboardStats where
  total_assessments : Nat
  high_risk_count : Nat
  medium_risk_count : Nat
  low_risk_count : Nat
  high_risk_percentage : Rat
  medium_risk_percentage : Rat
  low_risk_percentage : Rat
  average_risk_score : Rat
deriving DecidableEq

/-- get_dashboard_stats from prediction_repository.py (lines 94-123). -/
def get_dashboard_stats (recs : List StoredPrediction) : DashboardStats :=
  let total := recs.length
  let high := (recs.filter (fun r => r.risk_level == "high")).length
  let medium := (recs.filter (fun r => r.risk_level == "medium")).length
  let low := (recs.filter (fun r => r.risk_level == "low")).length
  let avg_score : Rat :=
    if total = 0 then 0 else ((recs.map (fun r => r.risk_score)).sum) / (total : Rat)
  { total_assessments := total,
    high_risk_count := high,
    medium_risk_count := medium,
    low_risk_count := low,
    high_risk_percentage :=
      pyRoundTo 2 (if 0 < total then (high : Rat) / (total : Rat) * 100 else 0),
    medium_risk_percentage :=
      pyRoundTo 2 (if 0 < total then (medium : Rat) / (total : Rat) * 100 else 0),
    low_risk_percentage :=
      pyRoundTo 2 (if 0 < total then (low : Rat) / (total : Rat) * 100 else 0),
    average_risk_score := pyRoundTo 1 avg_score }

/-- A stored risk-factor row joined with its parent prediction: the
category together with the parent prediction's creation day. -/
structure FactorRow where
  category : String
  created_at : Int
deriving DecidableEq

/-- An entry of the list returned by get_top_risk_factors. -/
structure RiskFactorSummary where
  name : String
  percentage : Rat
  trend : String
deriving DecidableEq

/-- calculate_trend from prediction_repository.py (lines 229-271):
compare the category count over the trailing 7 days against the
preceding 7-day window. -/
def calculate_trend (rows : List FactorRow) (now : Int) (category : String) :
    String :=
  let week_ago := now - 7
  let two_weeks_ago := now - 14
  let current_count :=
    (rows.filter (fun r => r.category == category && week_ago ≤ r.created_at)).length
  let prev_count :=
    (rows.filter (fun r =>
      r.category == category && two_weeks_ago ≤ r.created_at &&
        r.created_at < week_ago)).length
  if prev_count < current_count then "up"
  else if current_count < prev_count then "down"
  else "stable"

/-- The SQL GROUP BY over factor categories: each distinct category with
the number of rows carrying it. -/
def categoryCounts (cats : List String) : List (String × Nat) :=
  cats.dedup.map (fun c => (c, cats.count c))

/-- Category counts of the factor rows, ordered descending by count
(the ORDER BY count DESC of the query). -/
def sortedFactorCounts (rows : List FactorRow) : List (String × Nat) :=
  (categoryCounts (rows.map (fun r => r.category))).insertionSort
    (fun a b => b.2 ≤ a.2)

/-- The LIMIT clause: the top `limit` categories by count. -/
def topFactorCounts (rows : List FactorRow) (limit : Nat) : List (String × Nat) :=
  (sortedFactorCounts rows).take limit

/-- total_factors at line 211: the sum of the counts of the returned
(top) categories only, not of all stored factor rows. -/
def topFactorsTotal (rows : List FactorRow) (limit : Nat) : Nat :=
  ((topFactorCounts rows limit).map (fun p => p.2)).sum

/-- get_top_risk_factors from prediction_repository.py (lines 194-226). -/
def get_top_risk_factors (rows : List FactorRow) (now : Int) (limit : Nat) :
    List RiskFactorSummary :=
  (topFactorCounts rows limit).map (fun p =>
    { name := p.1,
      percentage :=
        pyRoundTo 1
          (if 0 < topFactorsTotal rows limit then
            (p.2 : Rat) / (topFactorsTotal rows limit : Rat) * 100
          else 0),
      trend := calculate_trend rows now p.1 })

/-! ## Concrete inputs used in evaluations and witnesses -/

/-- An assessment with every contribution at its benign value. -/
def benignAnswers : SimplifiedAssessmentRequest :=
  { consent_given := true,
    consent_data_processing := true,
    consent_anonymous_analytics := true,
    academic_year := "1st",
    attendance := "always",
    overwhelm_frequency := "never",
    study_hours := "5-8",
    performance_satisfaction := 10,
    advisor_interaction := "monthly",
    support_network_strength := 10,
    extracurricular_hours := 5,
    employment_status := "not-employed",
    financial_stress := "none",
    career_alignment := 10,
    services_used := ["tutoring"],
    withdrawal_considered := false,
    withdrawal_reasons := [] }

/-- The benign assessment with career_alignment 9: the only firing
contribution is the career term (10 - 9) * 1.5 = 1.5. -/
def oddCareerAnswers : SimplifiedAssessmentRequest :=
  { benignAnswers with career_alignment := 9 }

/-- An assessment on which every adverse contribution fires at its worst
bucket; the raw sum is 175. -/
def worstCaseAnswers : SimplifiedAssessmentRequest :=
  { consent_given := true,
    consent_data_processing := true,
    consent_anonymous_analytics := true,
    academic_year := "1st",
    attendance := "never",
    overwhelm_frequency := "always",
    study_hours := "1-3",
    performance_satisfaction := 0,
    advisor_interaction := "never",
    support_network_strength := 0,
    extracurricular_hours := 0,
    employment_status := "full-time",
    financial_stress := "very-high",
    career_alignment := 0,
    services_used := [],
    withdrawal_considered := true,
    withdrawal_reasons := [] }

/-! ## Helper lemmas -/

/-- Rat.floor agrees with the floor of the FloorRing instance on ℚ. -/
lemma rat_floor_eq (q : Rat) : q.floor = ⌊q⌋ := rfl

/-- Characterization of a two-threshold tiering if-chain. -/
lemma tier3_cases (a b x : Rat) (hba : b < a) :
    ((if a ≤ x then "high" else if b ≤ x then "medium" else "low") = "high" ↔ a ≤ x) ∧
    ((if a ≤ x then "high" else if b ≤ x then "medium" else "low") = "medium" ↔
      b ≤ x ∧ x < a) ∧
    ((if a ≤ x then "high" else if b ≤ x then "medium" else "low") = "low" ↔ x < b) := by
  split_ifs with h1 h2
  · refine ⟨iff_of_true rfl h1, iff_of_false (by decide) ?_, iff_of_false (by decide) ?_⟩
    · rintro ⟨-, hx⟩
      exact absurd h1 (not_le.2 hx)
    · intro hx
      exact absurd h1 (not_le.2 (hx.trans hba))
  · exact ⟨iff_of_false (by decide) h1,
      iff_of_true rfl ⟨h2, not_le.1 h1⟩,
      iff_of_false (by decide) (not_lt.2 h2)⟩
  · exact ⟨iff_of_false (by decide) h1,
      iff_of_false (by decide) (fun hx => h2 hx.1),
      iff_of_true rfl (not_le.1 h2)⟩

/-! ## Claim theorems -/

/-- Claim C1: for every probability p in [0,1], the model-path tier is
high iff p >= 0.60, medium iff 0.35 <= p < 0.60, and low iff p < 0.35;
the three tiers are a total, non-overlapping partition; and the same
boundary values, as raw scores 60/35, govern the heuristic path's
tiering (riskLevelOfScore, which calculate_fallback_risk applies to its
clamped score). -/
theorem risk_tier_partition (p : Rat) (hp0 : 0 ≤ p) (hp1 : p ≤ 1) :
    (riskLevelOfProb p = "high" ↔ 0.6 ≤ p) ∧
    (riskLevelOfProb p = "medium" ↔ 0.35 ≤ p ∧ p < 0.6) ∧
    (riskLevelOfProb p = "low" ↔ p < 0.35) ∧
    (riskLevelOfProb p = "high" ∨ riskLevelOfProb p = "medium" ∨
      riskLevelOfProb p = "low") ∧
    (∀ s : Rat,
      (riskLevelOfScore s = "high" ↔ 60 ≤ s) ∧
      (riskLevelOfScore s = "medium" ↔ 35 ≤ s ∧ s < 60) ∧
      (riskLevelOfScore s = "low" ↔ s < 35)) ∧
    ∀ d : SimplifiedAssessmentRequest,
      (calculate_fallback_risk d).risk_level = riskLevelOfScore (fallbackClampedScore d) := by
  obtain ⟨h1, h2, h3⟩ := tier3_cases 0.6 0.35 p (by norm_num)
  refine ⟨h1, h2, h3, ?_, fun s => tier3_cases 60 35 s (by norm_num), fun d => rfl⟩
  unfold riskLevelOfProb
  split_ifs <;> simp

/-- Witness for C1 at p = 1/2: in bounds, and tiered medium. -/
theorem risk_tier_partition_witness :
    (0 : Rat) ≤ 1/2 ∧ (1/2 : Rat) ≤ 1 ∧ riskLevelOfProb (1/2) = "medium" :=
  ⟨by norm_num, by norm_num,
    ((risk_tier_partition (1/2) (by norm_num) (by norm_num)).2.1).2 (by norm_num)⟩

/-- Claim C2: on the model path (structured and raw entry alike) the
returned risk score is the integer round(p * 100), Python rounding, of
the model probability p. -/
theorem model_score_is_rounded (d : SimplifiedAssessmentRequest)
    (pred : ModelPrediction) :
    (predictModelResponse d pred).risk_score =
      ((pyRound (pred.dropout_probability * 100) : Int) : Rat) ∧
    (predictRawResponse pred).risk_score =
      ((pyRound (pred.dropout_probability * 100) : Int) : Rat) :=
  ⟨rfl, rfl⟩

/-- Claim C9: every heuristic-fallback response has prediction confidence
exactly 0.75, no predicted-class label, and dropout probability equal to
the clamped risk score divided by 100 (and its risk_score field is that
clamped score). -/
theorem fallback_response_fields (d : SimplifiedAssessmentRequest) :
    (calculate_fallback_risk d).prediction_confidence = 0.75 ∧
    (calculate_fallback_risk d).predicted_class = none ∧
    (calculate_fallback_risk d).dropout_probability = fallbackClampedScore d / 100 ∧
    (calculate_fallback_risk d).risk_score = fallbackClampedScore d :=
  ⟨rfl, rfl, rfl, rfl⟩

/-- Claim C8: dashboard statistics over an empty record collection are
all zero (total, per-tier counts, per-tier percentages, average score)
and no error occurs (the embedding is a total function). -/
theorem dashboard_stats_empty :
    get_dashboard_stats [] =
      { total_assessments := 0,
        high_risk_count := 0,
        medium_risk_count := 0,
        low_risk_count := 0,
        high_risk_percentage := 0,
        medium_risk_percentage := 0,
        low_risk_percentage := 0,
        average_risk_score := 0 } := by
  simp only [get_dashboard_stats]
  norm_num [pyRoundTo, pyRound, rat_floor_eq]

/-- Claim C3 evaluation: the fallback scorer is NOT always integer-valued:
with every contribution benign except career_alignment = 9 the clamped
score is 3/2, whose denominator is not 1 (the PredictionResponse schema
declares risk_score as int, so this value cannot validate); on the
all-worst-case input the clamped score is exactly 100 with tier high, as
the claim states for that part. -/
theorem fallback_score_fractional :
    (calculate_fallback_risk oddCareerAnswers).risk_score = 3/2 ∧
    ((calculate_fallback_risk oddCareerAnswers).risk_score).den ≠ 1 ∧
    (calculate_fallback_risk worstCaseAnswers).risk_score = 100 ∧
    (calculate_fallback_risk worstCaseAnswers).risk_level = "high" := by
  have h1 : fallbackClampedScore oddCareerAnswers = 3/2 := by
    simp [fallbackClampedScore, fallbackRiskScore, dictGet, List.find?,
      oddCareerAnswers, benignAnswers]
    norm_num [max_def, min_def]
  have h2 : fallbackClampedScore worstCaseAnswers = 100 := by
    simp [fallbackClampedScore, fallbackRiskScore, dictGet, List.find?,
      worstCaseAnswers]
    norm_num [max_def, min_def]
  refine ⟨h1, ?_, h2, ?_⟩
  · show (fallbackClampedScore oddCareerAnswers).den ≠ 1
    rw [h1]
    norm_num [Rat.den]
  · show riskLevelOfScore (fallbackClampedScore worstCaseAnswers) = "high"
    rw [h2]
    norm_num [riskLevelOfScore]

/-- Claim C4: once a PredictionResult has been computed, the persistence
outcome (ok or error) never changes what the caller receives: both entry
points return the computed result, with the save attempt's failure caught
and swallowed. -/
theorem persistence_failure_swallowed (is_loaded : Bool)
    (mp : Option ModelPrediction) (save : Except String Nat)
    (d : SimplifiedAssessmentRequest) (features_dict : String → Option Rat)
    (model : List Rat → Option ModelPrediction) :
    predict_simplified is_loaded mp save d =
      .ok (computeSimplified is_loaded mp d) ∧
    predict_raw is_loaded features_dict model save =
      computeRaw is_loaded features_dict model := by
  constructor
  · cases is_loaded <;> cases mp <;> cases save <;> rfl
  · cases is_loaded
    · rfl
    · by_cases hm : FEATURE_ORDER.filter (fun f => (features_dict f).isNone) = []
      · simp only [predict_raw, computeRaw, if_pos hm]
        cases model (FEATURE_ORDER.map fun f => (features_dict f).getD 0) <;>
          cases save <;> simp
      · simp only [predict_raw, computeRaw, if_neg hm]

/-- Claim C6: on both the heuristic and the model-backed structured paths
the recommendation sequence is never empty, and when no other rule fired
it is exactly the single Stay Connected recommendation, whose urgency is
when-needed. -/
theorem recommendations_nonempty (d : SimplifiedAssessmentRequest)
    (pred : ModelPrediction) :
    (calculate_fallback_risk d).recommendations ≠ [] ∧
    (predictModelResponse d pred).recommendations ≠ [] ∧
    (fallbackRecsPre d (riskLevelOfScore (fallbackClampedScore d)) = [] →
      (calculate_fallback_risk d).recommendations = [stayConnectedRec]) ∧
    (modelRecsPre d (riskLevelOfProb pred.dropout_probability) = [] →
      (predictModelResponse d pred).recommendations = [stayConnectedRec]) ∧
    stayConnectedRec.urgency = "when-needed" := by
  have key : ∀ (l : List Recommendation),
      (if l = [] then [stayConnectedRec] else l) ≠ [] := by
    intro l
    split
    · simp
    · assumption
  refine ⟨key _, key _, fun h => ?_, fun h => ?_, rfl⟩
  · show (if fallbackRecsPre d (riskLevelOfScore (fallbackClampedScore d)) = []
        then [stayConnectedRec]
        else fallbackRecsPre d (riskLevelOfScore (fallbackClampedScore d))) =
      [stayConnectedRec]
    rw [if_pos h]
  · show (if modelRecsPre d (riskLevelOfProb pred.dropout_probability) = []
        then [stayConnectedRec]
        else modelRecsPre d (riskLevelOfProb pred.dropout_probability)) =
      [stayConnectedRec]
    rw [if_pos h]

/-- Witness for C6 at the all-benign assessment: no rule fires, and the
fallback path returns exactly the Stay Connected recommendation. -/
theorem recommendations_nonempty_witness :
    fallbackRecsPre benignAnswers
        (riskLevelOfScore (fallbackClampedScore benignAnswers)) = [] ∧
    (calculate_fallback_risk benignAnswers).recommendations = [stayConnectedRec] := by
  have hs : fallbackClampedScore benignAnswers = 0 := by
    simp [fallbackClampedScore, fallbackRiskScore, dictGet, List.find?, benignAnswers]
  have h : fallbackRecsPre benignAnswers
      (riskLevelOfScore (fallbackClampedScore benignAnswers)) = [] := by
    rw [hs]
    simp [fallbackRecsPre, riskLevelOfScore, benignAnswers]
    decide
  exact ⟨h, (recommendations_nonempty benignAnswers ⟨1/10, none, 4/5⟩).2.2.1 h⟩

/-- Claim C7: the applicationMode feature (index 7 of the feature vector)
is 2 exactly when employment is full-time and career alignment is below
5, and 1 in every other case; the career_alignment >= 8 branch collapses
to the same value 1 as the final else branch. -/
theorem application_mode_feature (d : SimplifiedAssessmentRequest) :
    ((map_form_to_ml_features d)[7]? =
      some (if d.employment_status = "full-time" ∧ d.career_alignment < 5
        then 2 else 1)) ∧
    ((map_form_to_ml_features d)[7]? = some 2 ↔
      d.employment_status = "full-time" ∧ d.career_alignment < 5) ∧
    ((map_form_to_ml_features d)[7]? = some 1 ↔
      ¬ (d.employment_status = "full-time" ∧ d.career_alignment < 5)) ∧
    (map_form_to_ml_features d).length = 8 := by
  have h0 : (map_form_to_ml_features d)[7]? =
      some (if d.employment_status = "full-time" ∧ d.career_alignment < 5 then 2
        else if 8 ≤ d.career_alignment then (1 : Rat) else 1) := rfl
  rw [ite_self] at h0
  refine ⟨h0, ?_, ?_, rfl⟩
  · rw [h0]
    by_cases hc : d.employment_status = "full-time" ∧ d.career_alignment < 5
    · simp [hc]
    · simp only [if_neg hc, Option.some.injEq]
      constructor
      · intro h
        exact absurd h (by norm_num)
      · intro h
        exact absurd h hc
  · rw [h0]
    by_cases hc : d.employment_status = "full-time" ∧ d.career_alignment < 5
    · simp only [if_pos hc, Option.some.injEq]
      constructor
      · intro h
        exact absurd h (by norm_num)
      · intro h
        exact absurd hc h
    · simp [hc]

/-- The withdrawal-reason loop appends, for each listed reason present in
the map and in listed order, the mapped recommendation to the first
component and the mapped risk factor to the second. -/
lemma applyWithdrawalEnrichment_eq (recs : List Recommendation)
    (fs : List RiskFactor) (reasons : List String) :
    applyWithdrawalEnrichment (recs, fs) reasons =
      (recs ++ (reasons.filterMap withdrawal_reason_map).map Prod.fst,
       fs ++ (reasons.filterMap withdrawal_reason_map).map Prod.snd) := by
  induction reasons generalizing recs fs with
  | nil => simp [applyWithdrawalEnrichment]
  | cons r rest ih =>
    simp only [applyWithdrawalEnrichment, List.foldl_cons, List.filterMap_cons] at ih ⊢
    cases h : withdrawal_reason_map r with
    | none => simpa [h] using ih recs fs
    | some pr => simpa [h] using ih (recs ++ [pr.1]) (fs ++ [pr.2])

/-- Claim C5: on the model path, when withdrawal is considered and the
reason list is non-empty, each listed reason found in the 6-entry map
contributes both its mapped recommendation and its mapped risk factor, in
the listed order, appended after the base rules (factors receive nothing
afterwards; recommendations are followed only by the services/fallback
tail); the heuristic fallback ignores the reason list entirely. -/
theorem withdrawal_reason_enrichment (d : SimplifiedAssessmentRequest)
    (pred : ModelPrediction) (hw : d.withdrawal_considered = true)
    (hr : d.withdrawal_reasons ≠ []) :
    ((predictModelResponse d pred).risk_factors =
      modelRiskFactorsBase d ++
        (d.withdrawal_reasons.filterMap withdrawal_reason_map).map Prod.snd) ∧
    (∃ tail,
      (predictModelResponse d pred).recommendations =
        modelRecsBase d (riskLevelOfProb pred.dropout_probability) ++
          (d.withdrawal_reasons.filterMap withdrawal_reason_map).map Prod.fst ++
          tail) ∧
    ∀ rs : List String,
      calculate_fallback_risk { d with withdrawal_reasons := rs } =
        calculate_fallback_risk d := by
  have hcond : (d.withdrawal_considered = true) ∧ d.withdrawal_reasons ≠ [] :=
    ⟨hw, hr⟩
  have he : modelEnriched d (riskLevelOfProb pred.dropout_probability) =
      (modelRecsBase d (riskLevelOfProb pred.dropout_probability) ++
        (d.withdrawal_reasons.filterMap withdrawal_reason_map).map Prod.fst,
       modelRiskFactorsBase d ++
        (d.withdrawal_reasons.filterMap withdrawal_reason_map).map Prod.snd) := by
    rw [modelEnriched, if_pos hcond, applyWithdrawalEnrichment_eq]
  refine ⟨?_, ?_, fun rs => rfl⟩
  · show (modelEnriched d (riskLevelOfProb pred.dropout_probability)).2 = _
    rw [he]
  · by_cases hpre : modelRecsPre d (riskLevelOfProb pred.dropout_probability) = []
    · refine ⟨[stayConnectedRec], ?_⟩
      have h2 : modelRecsBase d (riskLevelOfProb pred.dropout_probability) = [] ∧
          (d.withdrawal_reasons.filterMap withdrawal_reason_map).map Prod.fst = [] := by
        have h3 := hpre
        rw [modelRecsPre, he] at h3
        exact List.append_eq_nil.mp (List.append_eq_nil.mp h3).1
      show (if modelRecsPre d (riskLevelOfProb pred.dropout_probability) = []
          then [stayConnectedRec]
          else modelRecsPre d (riskLevelOfProb pred.dropout_probability)) = _
      rw [if_pos hpre, h2.1, h2.2]
      rfl
    · refine ⟨(if d.services_used = [] then [exploreServicesRec] else []), ?_⟩
      show (if modelRecsPre d (riskLevelOfProb pred.dropout_probability) = []
          then [stayConnectedRec]
          else modelRecsPre d (riskLevelOfProb pred.dropout_probability)) = _
      rw [if_neg hpre, modelRecsPre, he]

/-- The assessment used as C5's witness: withdrawal considered with the
two reasons Financial challenges and Mental health. -/
def withdrawalAnswers : SimplifiedAssessmentRequest :=
  { benignAnswers with
    withdrawal_considered := true,
    withdrawal_reasons := ["Financial challenges", "Mental health"] }

/-- Witness for C5 at a concrete assessment listing two mapped reasons. -/
theorem withdrawal_reason_enrichment_witness :
    withdrawalAnswers.withdrawal_considered = true ∧
    withdrawalAnswers.withdrawal_reasons ≠ [] ∧
    (predictModelResponse withdrawalAnswers ⟨1/10, none, 4/5⟩).risk_factors =
      modelRiskFactorsBase withdrawalAnswers ++
        (withdrawalAnswers.withdrawal_reasons.filterMap withdrawal_reason_map).map
          Prod.snd :=
  ⟨rfl, by simp [withdrawalAnswers],
    (withdrawal_reason_enrichment withdrawalAnswers ⟨1/10, none, 4/5⟩ rfl
      (by simp [withdrawalAnswers])).1⟩

/-- Rounding half to even moves a value by at most 1/2. -/
lemma pyRound_sub_abs (y : Rat) : |(pyRound y : Rat) - y| ≤ 1/2 := by
  have hfl : ((y.floor : Int) : Rat) ≤ y := by
    rw [rat_floor_eq]
    exact Int.floor_le y
  have hfu : y < ((y.floor : Int) : Rat) + 1 := by
    rw [rat_floor_eq]
    exact_mod_cast Int.lt_floor_add_one y
  simp only [pyRound]
  split_ifs with h1 h2 h3 <;> rw [abs_le] <;> constructor <;> push_cast <;> linarith

/-- Rounding to one decimal digit moves a value by at most 1/20. -/
lemma pyRoundTo_one_abs (x : Rat) : |pyRoundTo 1 x - x| ≤ 1/20 := by
  have h := pyRound_sub_abs (x * 10 ^ 1)
  simp only [pyRoundTo]
  have heq : (pyRound (x * 10 ^ 1) : Rat) / 10 ^ 1 - x =
      ((pyRound (x * 10 ^ 1) : Rat) - x * 10 ^ 1) / 10 ^ 1 := by
    ring
  rw [heq, abs_div]
  have habs : |(10 : Rat) ^ 1| = 10 := by norm_num
  rw [habs]
  linarith

/-- Rounding each list entry to one decimal moves the sum by at most
length/20. -/
lemma list_pyRoundTo_sum_abs (l : List Rat) :
    |(l.map (pyRoundTo 1)).sum - l.sum| ≤ (l.length : Rat) / 20 := by
  induction l with
  | nil => simp
  | cons x xs ih =>
    simp only [List.map_cons, List.sum_cons, List.length_cons]
    have h1 := pyRoundTo_one_abs x
    have htri : |(pyRoundTo 1 x + (xs.map (pyRoundTo 1)).sum) - (x + xs.sum)| ≤
        |pyRoundTo 1 x - x| + |(xs.map (pyRoundTo 1)).sum - xs.sum| := by
      have hsplit : (pyRoundTo 1 x + (xs.map (pyRoundTo 1)).sum) - (x + xs.sum) =
          (pyRoundTo 1 x - x) + ((xs.map (pyRoundTo 1)).sum - xs.sum) := by
        ring
      rw [hsplit]
      exact abs_add _ _
    have hlen : ((xs.length + 1 : Nat) : Rat) = (xs.length : Rat) + 1 := by
      push_cast
      ring
    rw [hlen]
    linarith

/-- Every grouped category count is positive. -/
lemma mem_categoryCounts_pos {cats : List String} {p : String × Nat}
    (hp : p ∈ categoryCounts cats) : 0 < p.2 := by
  unfold categoryCounts at hp
  obtain ⟨c, hc, rfl⟩ := List.mem_map.mp hp
  exact List.count_pos_iff.mpr (List.mem_dedup.mp hc)

/-- Grouping a non-empty list of categories yields a non-empty count list. -/
lemma categoryCounts_ne_nil {cats : List String} (h : cats ≠ []) :
    categoryCounts cats ≠ [] := by
  unfold categoryCounts
  simpa [List.map_eq_nil_iff, List.dedup_eq_nil] using h

/-- Every count among the returned top categories is positive. -/
lemma mem_topFactorCounts_pos (rows : List FactorRow) (limit : Nat)
    {p : String × Nat} (hp : p ∈ topFactorCounts rows limit) : 0 < p.2 := by
  have h1 : p ∈ sortedFactorCounts rows := List.take_subset _ _ hp
  have h2 : p ∈ categoryCounts (rows.map (fun r => r.category)) :=
    (List.perm_insertionSort _ _).mem_iff.mp h1
  exact mem_categoryCounts_pos h2

/-- With at least one factor row and a positive limit, some category is
returned. -/
lemma topFactorCounts_ne_nil (rows : List FactorRow) (limit : Nat)
    (hrows : rows ≠ []) (hlim : 1 ≤ limit) : topFactorCounts rows limit ≠ [] := by
  unfold topFactorCounts
  rw [Ne, List.take_eq_nil_iff]
  push_neg
  refine ⟨by omega, ?_⟩
  have h1 : categoryCounts (rows.map (fun r => r.category)) ≠ [] :=
    categoryCounts_ne_nil (by simpa [List.map_eq_nil_iff] using hrows)
  intro h2
  have hl := (List.perm_insertionSort (fun a b : String × Nat => b.2 ≤ a.2)
    (categoryCounts (rows.map (fun r => r.category)))).length_eq
  rw [show sortedFactorCounts rows =
      (categoryCounts (rows.map (fun r => r.category))).insertionSort
        (fun a b => b.2 ≤ a.2) from rfl] at h2
  rw [h2] at hl
  exact h1 (List.length_eq_zero.mp hl.symm)

/-- The per-request total the percentages divide by is positive. -/
lemma topFactorsTotal_pos (rows : List FactorRow) (limit : Nat)
    (hrows : rows ≠ []) (hlim : 1 ≤ limit) : 0 < topFactorsTotal rows limit := by
  obtain ⟨q, L, hq⟩ :=
    List.exists_cons_of_ne_nil (topFactorCounts_ne_nil rows limit hrows hlim)
  have hpos : 0 < q.2 := by
    refine mem_topFactorCounts_pos rows limit ?_
    rw [hq]
    exact List.mem_cons_self q L
  unfold topFactorsTotal
  rw [hq]
  simp only [List.map_cons, List.sum_cons]
  exact Nat.lt_of_lt_of_le hpos (Nat.le_add_right _ _)

/-- Claim C10: each returned top-risk-factor percentage is computed
relative to the total of only the returned (top-limit) categories, and
whenever at least one factor row exists (and the limit is positive) the
pre-rounding percentages sum to exactly 100, so the returned rounded
percentages sum to 100 up to at most length/20 of rounding error, even
when further categories were cut off by the limit. -/
theorem top_risk_factors_percentages (rows : List FactorRow) (now : Int)
    (limit : Nat) (hrows : rows ≠ []) (hlim : 1 ≤ limit) :
    0 < topFactorsTotal rows limit ∧
    (get_top_risk_factors rows now limit).map (fun f => f.percentage) =
      (topFactorCounts rows limit).map (fun p =>
        pyRoundTo 1 ((p.2 : Rat) / (topFactorsTotal rows limit : Rat) * 100)) ∧
    ((topFactorCounts rows limit).map (fun p =>
        (p.2 : Rat) / (topFactorsTotal rows limit : Rat) * 100)).sum = 100 ∧
    |((get_top_risk_factors rows now limit).map (fun f => f.percentage)).sum -
        100| ≤ ((topFactorCounts rows limit).length : Rat) / 20 := by
  have htot : 0 < topFactorsTotal rows limit :=
    topFactorsTotal_pos rows limit hrows hlim
  have htotQ : ((topFactorsTotal rows limit : Nat) : Rat) ≠ 0 :=
    ne_of_gt (by exact_mod_cast htot)
  have hmap : (get_top_risk_factors rows now limit).map (fun f => f.percentage) =
      (topFactorCounts rows limit).map (fun p =>
        pyRoundTo 1 ((p.2 : Rat) / (topFactorsTotal rows limit : Rat) * 100)) := by
    unfold get_top_risk_factors
    rw [List.map_map]
    refine List.map_congr_left (fun p _ => ?_)
    simp only [Function.comp_def]
    rw [if_pos htot]
  have hsum : ((topFactorCounts rows limit).map (fun p => (p.2 : Rat))).sum =
      (topFactorsTotal rows limit : Rat) := by
    unfold topFactorsTotal
    rw [Nat.cast_list_sum, List.map_map]
    rfl
  have h100 : ((topFactorCounts rows limit).map (fun p =>
      (p.2 : Rat) / (topFactorsTotal rows limit : Rat) * 100)).sum = 100 := by
    have hrw : ∀ p : String × Nat,
        (p.2 : Rat) / (topFactorsTotal rows limit : Rat) * 100 =
          (p.2 : Rat) * (100 / (topFactorsTotal rows limit : Rat)) := by
      intro p
      ring
    simp only [hrw]
    rw [List.sum_map_mul_right, hsum]
    field_simp
  refine ⟨htot, hmap, h100, ?_⟩
  rw [hmap]
  have hb := list_pyRoundTo_sum_abs ((topFactorCounts rows limit).map (fun p =>
    (p.2 : Rat) / (topFactorsTotal rows limit : Rat) * 100))
  rw [List.map_map, h100, List.length_map] at hb
  simpa [Function.comp_def] using hb

/-- Concrete factor rows for C10's witness: three categories with counts
2, 2 and 1, queried with limit 2 so that one category is cut off. -/
def sampleFactorRows : List FactorRow :=
  [⟨"Academic", 0⟩, ⟨"Academic", 0⟩, ⟨"Financial", 0⟩,
   ⟨"Financial", 0⟩, ⟨"Mental Health", 0⟩]

/-- Witness for C10 at the sample rows with limit 2. -/
theorem top_risk_factors_percentages_witness :
    sampleFactorRows ≠ [] ∧ 1 ≤ 2 ∧ 0 < topFactorsTotal sampleFactorRows 2 :=
  ⟨by simp [sampleFactorRows], by omega,
    (top_risk_factors_percentages sampleFactorRows 0 2
      (by simp [sampleFactorRows]) (by omega)).1⟩

end DTL
